import Mathlib

/-!
Verification of the effective-capacity projection model of `zram-advisor`
(`src/zram_advisor/main.py`).  The portable function `compute_zram_effective`
(lines 86-166) and the device aggregation loop of `ZramAdvisor.compute_effective`
(lines 371-381) are shallowly embedded here.

Python numbers are modelled by `ℚ` (all quantities involved are integers or
exact dyadic/decimal fractions, so rational arithmetic coincides with the
source's arithmetic on every value considered here); a Python
`ZeroDivisionError` is modelled by the function returning `none`.
-/

/-- Result record returned by `compute_zram_effective`: the `SimpleNamespace`
built at main.py lines 158-166. -/
structure ZramEffective where
  e_used : ℚ
  e_avail : ℚ
  e_max_used : ℚ
  ratio_current : ℚ
  ratio_projected : ℚ
  projection_confidence : String
  usage_fraction : ℚ
  deriving Repr, DecidableEq

/-- Line 116: `e_used = meminfo_used - zram_mem_used_total + zram_orig_data_size`. -/
def rawEffectiveUsed (meminfo_used zram_mem_used_total zram_orig_data_size : ℚ) : ℚ :=
  meminfo_used - zram_mem_used_total + zram_orig_data_size

/-- Lines 119-125: the current compression ratio.  When the raw effective used
does not exceed `meminfo_used` (zRAM not helping yet) the code clamps and uses
the placeholder 2.75; otherwise it divides `zram_orig_data_size` by
`zram_mem_used_total` when that is positive, falling back to 2.75. -/
def currentRatio (meminfo_used zram_mem_used_total zram_orig_data_size : ℚ) : ℚ :=
  if rawEffectiveUsed meminfo_used zram_mem_used_total zram_orig_data_size ≤ meminfo_used then
    2.75
  else if zram_mem_used_total > 0 then
    zram_orig_data_size / zram_mem_used_total
  else
    2.75

/-- Lines 120-121: `e_used` after the clamp to `meminfo_used`. -/
def clampedEffectiveUsed (meminfo_used zram_mem_used_total zram_orig_data_size : ℚ) : ℚ :=
  if rawEffectiveUsed meminfo_used zram_mem_used_total zram_orig_data_size ≤ meminfo_used then
    meminfo_used
  else
    rawEffectiveUsed meminfo_used zram_mem_used_total zram_orig_data_size

/-- Lines 128-130: when `zram_mem_limit > 0` the limit percentage becomes
`min(100.0, limit_pct, (zram_mem_limit / meminfo_total) * 100)`.
The division by `meminfo_total` is unguarded in the source; the caller
(`compute_zram_effective` below) maps the `meminfo_total = 0` case to `none`
before reaching this computation, mirroring the `ZeroDivisionError`. -/
def resolvedLimitPct (meminfo_total zram_mem_limit limit_pct : ℚ) : ℚ :=
  if zram_mem_limit > 0 then
    min (min 100 limit_pct) (zram_mem_limit / meminfo_total * 100)
  else
    limit_pct

/-- Line 133: `usage_fraction = zram_orig_data_size / zram_disksize if zram_disksize > 0 else 0`. -/
def usageFraction (zram_orig_data_size zram_disksize : ℚ) : ℚ :=
  if zram_disksize > 0 then zram_orig_data_size / zram_disksize else 0

/-- Lines 136-144: degradation multiplier selected by the usage fraction. -/
def degradationFactor (uf : ℚ) : ℚ :=
  if uf < 0.10 then 0.75
  else if uf < 0.50 then 0.85
  else 0.95

/-- Lines 136-144: confidence label selected by the usage fraction. -/
def confidenceLabel (uf : ℚ) : String :=
  if uf < 0.10 then "uncertain"
  else if uf < 0.50 then "confident"
  else "certain"

/-- Lines 149-153: projected maximum effective memory.  First
`projected_ratio * meminfo_total * limit_pct / 100`, capped by `zram_disksize`,
then `meminfo_total - e_max_used / projected_ratio` is added. -/
def projectedMaxUsed (meminfo_total zram_disksize limit_pct projected_ratio : ℚ) : ℚ :=
  let capped := min (projected_ratio * meminfo_total * limit_pct / 100) zram_disksize
  capped + (meminfo_total - capped / projected_ratio)

/-- The pure value computed by `compute_zram_effective` on the non-raising
paths, assembled exactly as in main.py lines 115-166. -/
def computeCore (meminfo_total meminfo_used zram_orig_data_size zram_mem_used_total
    zram_disksize zram_mem_limit limit_pct : ℚ) : ZramEffective :=
  let e_used := clampedEffectiveUsed meminfo_used zram_mem_used_total zram_orig_data_size
  let r := currentRatio meminfo_used zram_mem_used_total zram_orig_data_size
  let pct := resolvedLimitPct meminfo_total zram_mem_limit limit_pct
  let uf := usageFraction zram_orig_data_size zram_disksize
  let projected := r * degradationFactor uf
  let e_max_used := projectedMaxUsed meminfo_total zram_disksize pct projected
  { e_used := e_used
    e_avail := e_max_used - e_used
    e_max_used := e_max_used
    ratio_current := r
    ratio_projected := projected
    projection_confidence := confidenceLabel uf
    usage_fraction := uf }

/-- Lines 86-166, `compute_zram_effective`.  The parameter order matches the
Python signature (`meminfo_available` is accepted and never read, exactly as
in the source).  `none` models a `ZeroDivisionError`: either the unguarded
`zram_mem_limit / meminfo_total` at line 129 (reached when
`zram_mem_limit > 0` and `meminfo_total = 0`) or the unguarded
`e_max_used / projected_ratio` at line 153 (reached when the projected ratio
is zero, which the theorems below show impossible on non-negative inputs). -/
def compute_zram_effective (meminfo_total meminfo_used meminfo_available
    zram_orig_data_size zram_mem_used_total zram_disksize
    zram_mem_limit limit_pct : ℚ) : Option ZramEffective :=
  if zram_mem_limit > 0 ∧ meminfo_total = 0 then
    none
  else if currentRatio meminfo_used zram_mem_used_total zram_orig_data_size *
      degradationFactor (usageFraction zram_orig_data_size zram_disksize) = 0 then
    none
  else
    some (computeCore meminfo_total meminfo_used zram_orig_data_size zram_mem_used_total
      zram_disksize zram_mem_limit limit_pct)

/-- Per-device counters read from sysfs in `get_zram_stats`
(main.py lines 284-317): the five `mm_stat` fields plus `disksize`. -/
structure DeviceStats where
  orig_data_size : ℕ
  compr_data_size : ℕ
  mem_used_total : ℕ
  mem_limit : ℕ
  mem_used_max : ℕ
  disksize : ℕ
  deriving Repr, DecidableEq

/-- One step of the aggregation loop at main.py lines 379-380:
`stats[key] += value` for every field. -/
def addStats (a b : DeviceStats) : DeviceStats :=
  { orig_data_size := a.orig_data_size + b.orig_data_size
    compr_data_size := a.compr_data_size + b.compr_data_size
    mem_used_total := a.mem_used_total + b.mem_used_total
    mem_limit := a.mem_limit + b.mem_limit
    mem_used_max := a.mem_used_max + b.mem_used_max
    disksize := a.disksize + b.disksize }

/-- The aggregation loop of `ZramAdvisor.compute_effective` (main.py lines
371-381): the first device's stats are copied, every further device's fields
are added in. (`compute_effective` returns early when there are no devices,
so aggregation only ever runs on a non-empty collection.) -/
def aggregateStats (first : DeviceStats) (rest : List DeviceStats) : DeviceStats :=
  rest.foldl addStats first

/-- One GiB in bytes, as used by the spec's concrete scenarios. -/
def GiB : ℚ := 1073741824

theorem degradationFactor_pos (uf : ℚ) : 0 < degradationFactor uf := by
  unfold degradationFactor
  split_ifs <;> norm_num

theorem currentRatio_pos (meminfo_used zram_mem_used_total zram_orig_data_size : ℚ) :
    0 < currentRatio meminfo_used zram_mem_used_total zram_orig_data_size := by
  unfold currentRatio rawEffectiveUsed
  split_ifs with h1 h2
  · norm_num
  · have hom : zram_mem_used_total < zram_orig_data_size := by
      have := not_le.mp h1
      linarith
    exact div_pos (h2.trans hom) h2
  · norm_num

theorem compute_eq_some (meminfo_total meminfo_used meminfo_available
    zram_orig_data_size zram_mem_used_total zram_disksize zram_mem_limit limit_pct : ℚ)
    (hok : ¬(0 < zram_mem_limit ∧ meminfo_total = 0)) :
    compute_zram_effective meminfo_total meminfo_used meminfo_available
      zram_orig_data_size zram_mem_used_total zram_disksize zram_mem_limit limit_pct =
    some (computeCore meminfo_total meminfo_used zram_orig_data_size zram_mem_used_total
      zram_disksize zram_mem_limit limit_pct) := by
  unfold compute_zram_effective
  rw [if_neg hok, if_neg]
  exact (mul_pos (currentRatio_pos _ _ _) (degradationFactor_pos _)).ne'

theorem compute_some_elim {meminfo_total meminfo_used meminfo_available
    zram_orig_data_size zram_mem_used_total zram_disksize zram_mem_limit limit_pct : ℚ}
    {r : ZramEffective}
    (h : compute_zram_effective meminfo_total meminfo_used meminfo_available
      zram_orig_data_size zram_mem_used_total zram_disksize zram_mem_limit limit_pct = some r) :
    r = computeCore meminfo_total meminfo_used zram_orig_data_size zram_mem_used_total
      zram_disksize zram_mem_limit limit_pct ∧
    ¬(0 < zram_mem_limit ∧ meminfo_total = 0) := by
  by_cases h1 : 0 < zram_mem_limit ∧ meminfo_total = 0
  · rw [compute_zram_effective, if_pos h1] at h
    exact absurd h (by simp)
  · rw [compute_eq_some _ _ _ _ _ _ _ _ h1] at h
    exact ⟨(Option.some.inj h).symm, h1⟩

theorem computeCore_e_used (t u o m d ml p : ℚ) :
    (computeCore t u o m d ml p).e_used = clampedEffectiveUsed u m o := rfl

theorem computeCore_ratio_current (t u o m d ml p : ℚ) :
    (computeCore t u o m d ml p).ratio_current = currentRatio u m o := rfl

theorem computeCore_usage_fraction (t u o m d ml p : ℚ) :
    (computeCore t u o m d ml p).usage_fraction = usageFraction o d := rfl

theorem computeCore_confidence (t u o m d ml p : ℚ) :
    (computeCore t u o m d ml p).projection_confidence = confidenceLabel (usageFraction o d) := rfl

theorem computeCore_ratio_projected (t u o m d ml p : ℚ) :
    (computeCore t u o m d ml p).ratio_projected =
      currentRatio u m o * degradationFactor (usageFraction o d) := rfl

theorem computeCore_e_max_used (t u o m d ml p : ℚ) :
    (computeCore t u o m d ml p).e_max_used =
      projectedMaxUsed t d (resolvedLimitPct t ml p)
        (currentRatio u m o * degradationFactor (usageFraction o d)) := rfl

theorem computeCore_e_avail (t u o m d ml p : ℚ) :
    (computeCore t u o m d ml p).e_avail =
      (computeCore t u o m d ml p).e_max_used - (computeCore t u o m d ml p).e_used := rfl

theorem usageFraction_nonneg {o d : ℚ} (ho : 0 ≤ o) : 0 ≤ usageFraction o d := by
  unfold usageFraction
  split_ifs with hdpos
  · exact div_nonneg ho hdpos.le
  · exact le_refl 0

theorem usageFraction_zero (d : ℚ) : usageFraction 0 d = 0 := by
  unfold usageFraction
  split_ifs <;> simp

theorem resolvedLimitPct_nonneg {t ml p : ℚ} (ht : 0 ≤ t) (hml : 0 ≤ ml) (hp : 0 ≤ p) :
    0 ≤ resolvedLimitPct t ml p := by
  unfold resolvedLimitPct
  split_ifs with hmlpos
  · refine le_min (le_min (by norm_num) hp) ?_
    have := div_nonneg hml ht
    positivity
  · exact hp

theorem projectedMaxUsed_le_add {t d pct pr : ℚ} (ht : 0 ≤ t) (hd : 0 ≤ d)
    (hpct : 0 ≤ pct) (hpr : 0 < pr) :
    projectedMaxUsed t d pct pr ≤ d + t := by
  unfold projectedMaxUsed
  have hc0 : 0 ≤ min (pr * t * pct / 100) d := le_min (by positivity) hd
  have hcd : min (pr * t * pct / 100) d ≤ d := min_le_right _ _
  have hdiv : 0 ≤ min (pr * t * pct / 100) d / pr := div_nonneg hc0 hpr.le
  linarith

/-- C1 counterexample: with `meminfo_total = 0` and `zram_mem_limit = 1 > 0` the
source hits the unguarded division `zram_mem_limit / meminfo_total` at line 129
and raises `ZeroDivisionError` (modelled as `none`), so the claim that every
combination of zero-valued fields is safe fails. -/
theorem compute_zero_total_with_limit_raises :
    compute_zram_effective 0 0 0 0 0 0 1 80 = none := rfl

/-- C1 (amended): for all non-negative inputs with `meminfo_total > 0` or
`zram_mem_limit = 0`, `compute_zram_effective` returns a result without
raising, and `ratio_current`, `ratio_projected` and `usage_fraction` are
non-negative (and finite, as every value of `ℚ` is); when `meminfo_total = 0`
and `zram_mem_limit > 0` the function instead raises `ZeroDivisionError`. -/
theorem compute_safe_on_nonneg (meminfo_total meminfo_used meminfo_available
    zram_orig_data_size zram_mem_used_total zram_disksize zram_mem_limit limit_pct : ℚ)
    (ht : 0 ≤ meminfo_total) (hu : 0 ≤ meminfo_used) (ha : 0 ≤ meminfo_available)
    (ho : 0 ≤ zram_orig_data_size) (hm : 0 ≤ zram_mem_used_total)
    (hd : 0 ≤ zram_disksize) (hml : 0 ≤ zram_mem_limit) (hp : 0 ≤ limit_pct)
    (hok : 0 < meminfo_total ∨ zram_mem_limit = 0) :
    ∃ r, compute_zram_effective meminfo_total meminfo_used meminfo_available
        zram_orig_data_size zram_mem_used_total zram_disksize zram_mem_limit limit_pct =
        some r ∧
      0 ≤ r.ratio_current ∧ 0 ≤ r.ratio_projected ∧ 0 ≤ r.usage_fraction := by
  have hok' : ¬(0 < zram_mem_limit ∧ meminfo_total = 0) := by
    rintro ⟨h1, h2⟩
    rcases hok with hlt | hzero
    · exact absurd h2 hlt.ne'
    · exact absurd h1 (by simp [hzero])
  refine ⟨_, compute_eq_some _ _ _ _ _ _ _ _ hok', ?_, ?_, ?_⟩
  · rw [computeCore_ratio_current]
    exact (currentRatio_pos _ _ _).le
  · rw [computeCore_ratio_projected]
    exact (mul_pos (currentRatio_pos _ _ _) (degradationFactor_pos _)).le
  · rw [computeCore_usage_fraction]
    exact usageFraction_nonneg ho

/-- Witness for C1 (amended) at the all-zero device state with 1 byte of RAM. -/
theorem compute_safe_on_nonneg_witness :
    (0:ℚ) < 1 ∧
    ∃ r, compute_zram_effective 1 0 0 0 0 0 0 80 = some r ∧
      0 ≤ r.ratio_current ∧ 0 ≤ r.ratio_projected ∧ 0 ≤ r.usage_fraction :=
  ⟨by norm_num,
   compute_safe_on_nonneg 1 0 0 0 0 0 0 80 (by norm_num) (by norm_num) (by norm_num)
     (by norm_num) (by norm_num) (by norm_num) (by norm_num) (by norm_num)
     (Or.inl (by norm_num))⟩

/-- C2: on every input on which `compute_zram_effective` returns, the
confidence label is a pure step function of `usage_fraction` with the tiers
`uncertain`/0.75 below 0.10, `confident`/0.85 on [0.10, 0.50), and
`certain`/0.95 at and above 0.50, and `ratio_projected` is `ratio_current`
times the selected degradation factor. -/
theorem confidence_step_of_usage (meminfo_total meminfo_used meminfo_available
    zram_orig_data_size zram_mem_used_total zram_disksize zram_mem_limit limit_pct : ℚ)
    (r : ZramEffective)
    (h : compute_zram_effective meminfo_total meminfo_used meminfo_available
      zram_orig_data_size zram_mem_used_total zram_disksize zram_mem_limit limit_pct =
      some r) :
    (r.usage_fraction < 0.10 →
      r.projection_confidence = "uncertain" ∧ r.ratio_projected = r.ratio_current * 0.75) ∧
    (0.10 ≤ r.usage_fraction ∧ r.usage_fraction < 0.50 →
      r.projection_confidence = "confident" ∧ r.ratio_projected = r.ratio_current * 0.85) ∧
    (0.50 ≤ r.usage_fraction →
      r.projection_confidence = "certain" ∧ r.ratio_projected = r.ratio_current * 0.95) := by
  obtain ⟨rfl, -⟩ := compute_some_elim h
  rw [computeCore_usage_fraction, computeCore_confidence, computeCore_ratio_projected,
    computeCore_ratio_current]
  unfold confidenceLabel degradationFactor
  split_ifs with h1 h2
  · refine ⟨fun _ => ⟨rfl, rfl⟩, fun hh => absurd h1 (not_lt.mpr hh.1), fun hh => ?_⟩
    exact absurd h1 (not_lt.mpr (le_trans (by norm_num) hh))
  · exact ⟨fun hh => absurd hh h1, fun _ => ⟨rfl, rfl⟩, fun hh => absurd h2 (not_lt.mpr hh)⟩
  · exact ⟨fun hh => absurd hh h1, fun hh => absurd hh.2 h2, fun _ => ⟨rfl, rfl⟩⟩

/-- Witness for C2 at the spec's typical scenario scaled to unit bytes. -/
theorem confidence_step_of_usage_witness :
    compute_zram_effective 8 5 3 2 1 4 0 80 = some (computeCore 8 5 2 1 4 0 80) ∧
    (((computeCore 8 5 2 1 4 0 80).usage_fraction < 0.10 →
      (computeCore 8 5 2 1 4 0 80).projection_confidence = "uncertain" ∧
      (computeCore 8 5 2 1 4 0 80).ratio_projected =
        (computeCore 8 5 2 1 4 0 80).ratio_current * 0.75) ∧
    (0.10 ≤ (computeCore 8 5 2 1 4 0 80).usage_fraction ∧
        (computeCore 8 5 2 1 4 0 80).usage_fraction < 0.50 →
      (computeCore 8 5 2 1 4 0 80).projection_confidence = "confident" ∧
      (computeCore 8 5 2 1 4 0 80).ratio_projected =
        (computeCore 8 5 2 1 4 0 80).ratio_current * 0.85) ∧
    (0.50 ≤ (computeCore 8 5 2 1 4 0 80).usage_fraction →
      (computeCore 8 5 2 1 4 0 80).projection_confidence = "certain" ∧
      (computeCore 8 5 2 1 4 0 80).ratio_projected =
        (computeCore 8 5 2 1 4 0 80).ratio_current * 0.95)) :=
  have hsome : compute_zram_effective 8 5 3 2 1 4 0 80 = some (computeCore 8 5 2 1 4 0 80) :=
    compute_eq_some 8 5 3 2 1 4 0 80 (by norm_num)
  ⟨hsome, confidence_step_of_usage 8 5 3 2 1 4 0 80 _ hsome⟩

/-- C3: with `zram_orig_data_size = 0` the clamp applies, so `e_used`
equals `meminfo_used`, the ratio falls back to the 2.75 placeholder,
`usage_fraction` is 0 giving the `uncertain` tier, and the projected ratio
is 2.75 * 0.75 = 2.0625, regardless of `zram_mem_used_total`. -/
theorem orig_zero_defaults (meminfo_total meminfo_used meminfo_available
    zram_mem_used_total zram_disksize zram_mem_limit limit_pct : ℚ) (r : ZramEffective)
    (hm : 0 ≤ zram_mem_used_total)
    (h : compute_zram_effective meminfo_total meminfo_used meminfo_available 0
      zram_mem_used_total zram_disksize zram_mem_limit limit_pct = some r) :
    r.e_used = meminfo_used ∧ r.ratio_current = 2.75 ∧ r.usage_fraction = 0 ∧
    r.projection_confidence = "uncertain" ∧ r.ratio_projected = 2.0625 := by
  obtain ⟨rfl, -⟩ := compute_some_elim h
  have hclamp : rawEffectiveUsed meminfo_used zram_mem_used_total 0 ≤ meminfo_used := by
    unfold rawEffectiveUsed
    linarith
  refine ⟨?_, ?_, ?_, ?_, ?_⟩
  · rw [computeCore_e_used]
    unfold clampedEffectiveUsed
    rw [if_pos hclamp]
  · rw [computeCore_ratio_current]
    unfold currentRatio
    rw [if_pos hclamp]
  · rw [computeCore_usage_fraction, usageFraction_zero]
  · rw [computeCore_confidence, usageFraction_zero]
    unfold confidenceLabel
    rw [if_pos (by norm_num : (0:ℚ) < 0.10)]
  · rw [computeCore_ratio_projected, usageFraction_zero]
    unfold currentRatio degradationFactor
    rw [if_pos hclamp, if_pos (by norm_num : (0:ℚ) < 0.10)]
    norm_num

/-- Witness for C3 on a device holding no data. -/
theorem orig_zero_defaults_witness :
    (0:ℚ) ≤ 3 ∧
    compute_zram_effective 1 5 0 0 3 4 0 80 = some (computeCore 1 5 0 3 4 0 80) ∧
    ((computeCore 1 5 0 3 4 0 80).e_used = 5 ∧
     (computeCore 1 5 0 3 4 0 80).ratio_current = 2.75 ∧
     (computeCore 1 5 0 3 4 0 80).usage_fraction = 0 ∧
     (computeCore 1 5 0 3 4 0 80).projection_confidence = "uncertain" ∧
     (computeCore 1 5 0 3 4 0 80).ratio_projected = 2.0625) :=
  have hsome : compute_zram_effective 1 5 0 0 3 4 0 80 = some (computeCore 1 5 0 3 4 0 80) :=
    compute_eq_some 1 5 0 0 3 4 0 80 (by norm_num)
  ⟨by norm_num, hsome, orig_zero_defaults 1 5 0 3 4 0 80 _ (by norm_num) hsome⟩

/-- C4: the spec's typical scenario (8 GiB of RAM, 5 GiB used, 2 GiB stored
uncompressed in 1 GiB of zRAM memory, 4 GiB disksize, no memory limit,
80% cap) yields `e_used = 6 GiB` with no clamp, a current ratio of 2.0,
usage fraction 0.5, confidence `certain` and projected ratio 1.9. -/
theorem scenario_typical :
    (compute_zram_effective (8*GiB) (5*GiB) (3*GiB) (2*GiB) GiB (4*GiB) 0 80).map
      (fun r => (r.e_used, r.ratio_current, r.usage_fraction, r.projection_confidence,
        r.ratio_projected)) =
    some (6*GiB, 2, 0.5, "certain", 1.9) := by
  norm_num [compute_zram_effective, computeCore, clampedEffectiveUsed, rawEffectiveUsed,
    currentRatio, resolvedLimitPct, usageFraction, degradationFactor, confidenceLabel,
    projectedMaxUsed, GiB]

/-- C5: with a positive `zram_mem_limit` and positive RAM total, the limit
percentage used for projection is the tightest of the three caps
`min(100, limit_pct, 100 * zram_mem_limit / meminfo_total)`; at 1 GiB of
limit against 8 GiB of RAM and `limit_pct = 80` this is 12.5, and on the
typical scenario it strictly shrinks `e_max_used` (8.9 GiB) versus the
`zram_mem_limit = 0` case (188/19 GiB) with identical other inputs. -/
theorem limit_resolution_tightest (meminfo_total zram_mem_limit limit_pct : ℚ)
    (ht : 0 < meminfo_total) (hml : 0 < zram_mem_limit) :
    resolvedLimitPct meminfo_total zram_mem_limit limit_pct =
      min 100 (min limit_pct (100 * zram_mem_limit / meminfo_total)) ∧
    resolvedLimitPct (8*GiB) GiB 80 = 12.5 ∧
    (compute_zram_effective (8*GiB) (5*GiB) (3*GiB) (2*GiB) GiB (4*GiB) GiB 80).map
      ZramEffective.e_max_used = some (8.9 * GiB) ∧
    (compute_zram_effective (8*GiB) (5*GiB) (3*GiB) (2*GiB) GiB (4*GiB) 0 80).map
      ZramEffective.e_max_used = some (188/19 * GiB) ∧
    8.9 * GiB < 188/19 * GiB := by
  refine ⟨?_, ?_, ?_, ?_, ?_⟩
  · unfold resolvedLimitPct
    rw [if_pos hml,
      show zram_mem_limit / meminfo_total * 100 = 100 * zram_mem_limit / meminfo_total
        by ring,
      min_assoc]
  · norm_num [resolvedLimitPct, GiB]
  · norm_num [compute_zram_effective, computeCore, clampedEffectiveUsed, rawEffectiveUsed,
      currentRatio, resolvedLimitPct, usageFraction, degradationFactor, confidenceLabel,
      projectedMaxUsed, GiB]
  · norm_num [compute_zram_effective, computeCore, clampedEffectiveUsed, rawEffectiveUsed,
      currentRatio, resolvedLimitPct, usageFraction, degradationFactor, confidenceLabel,
      projectedMaxUsed, GiB]
  · norm_num [GiB]

/-- Witness for C5 at `meminfo_total = 8`, `zram_mem_limit = 1`, `limit_pct = 80`. -/
theorem limit_resolution_tightest_witness :
    (0:ℚ) < 8 ∧ (0:ℚ) < 1 ∧
    (resolvedLimitPct 8 1 80 = min 100 (min 80 (100 * 1 / 8)) ∧
     resolvedLimitPct (8*GiB) GiB 80 = 12.5 ∧
     (compute_zram_effective (8*GiB) (5*GiB) (3*GiB) (2*GiB) GiB (4*GiB) GiB 80).map
       ZramEffective.e_max_used = some (8.9 * GiB) ∧
     (compute_zram_effective (8*GiB) (5*GiB) (3*GiB) (2*GiB) GiB (4*GiB) 0 80).map
       ZramEffective.e_max_used = some (188/19 * GiB) ∧
     8.9 * GiB < 188/19 * GiB) :=
  ⟨by norm_num, by norm_num, limit_resolution_tightest 8 1 80 (by norm_num) (by norm_num)⟩

/-- C6: on every non-negative input on which `compute_zram_effective`
returns, `e_max_used` never exceeds `zram_disksize + meminfo_total`: the
compressed contribution is capped by the disksize and the added
uncompressed term is at most the RAM total. -/
theorem e_max_within_physical_bound (meminfo_total meminfo_used meminfo_available
    zram_orig_data_size zram_mem_used_total zram_disksize zram_mem_limit limit_pct : ℚ)
    (r : ZramEffective)
    (ht : 0 ≤ meminfo_total) (hd : 0 ≤ zram_disksize) (hml : 0 ≤ zram_mem_limit)
    (hp : 0 ≤ limit_pct)
    (h : compute_zram_effective meminfo_total meminfo_used meminfo_available
      zram_orig_data_size zram_mem_used_total zram_disksize zram_mem_limit limit_pct =
      some r) :
    r.e_max_used ≤ zram_disksize + meminfo_total := by
  obtain ⟨rfl, -⟩ := compute_some_elim h
  rw [computeCore_e_max_used]
  exact projectedMaxUsed_le_add ht hd (resolvedLimitPct_nonneg ht hml hp)
    (mul_pos (currentRatio_pos _ _ _) (degradationFactor_pos _))

/-- Witness for C6 at 1 byte of RAM and an all-zero device. -/
theorem e_max_within_physical_bound_witness :
    (0:ℚ) ≤ 1 ∧
    compute_zram_effective 1 0 0 0 0 0 0 80 = some (computeCore 1 0 0 0 0 0 80) ∧
    (computeCore 1 0 0 0 0 0 80).e_max_used ≤ 0 + 1 :=
  have hsome : compute_zram_effective 1 0 0 0 0 0 0 80 = some (computeCore 1 0 0 0 0 0 80) :=
    compute_eq_some 1 0 0 0 0 0 0 80 (by norm_num)
  ⟨by norm_num, hsome,
   e_max_within_physical_bound 1 0 0 0 0 0 0 80 _ (by norm_num) (by norm_num) (by norm_num)
     (by norm_num) hsome⟩

/-- C7 counterexample: with `zram_orig_data_size = 2` and `zram_disksize = 1`
the returned `usage_fraction` is 2, which lies outside [0, 1], refuting the
claimed range. -/
theorem usage_fraction_exceeds_one :
    (compute_zram_effective 8 5 3 2 1 1 0 80).map ZramEffective.usage_fraction = some 2 ∧
    ¬((2:ℚ) ≤ 1) := by
  constructor
  · norm_num [compute_zram_effective, computeCore, clampedEffectiveUsed, rawEffectiveUsed,
      currentRatio, resolvedLimitPct, usageFraction, degradationFactor, confidenceLabel,
      projectedMaxUsed]
  · norm_num

/-- C7 (amended): on every non-negative input on which the function returns,
`usage_fraction` is non-negative, equals `zram_orig_data_size / zram_disksize`
when `zram_disksize > 0` and 0 otherwise, and lies in [0, 1] whenever
`zram_orig_data_size ≤ zram_disksize` — but it exceeds 1 (is not clamped)
when the stored data exceeds the disksize. -/
theorem usage_fraction_formula (meminfo_total meminfo_used meminfo_available
    zram_orig_data_size zram_mem_used_total zram_disksize zram_mem_limit limit_pct : ℚ)
    (r : ZramEffective)
    (ho : 0 ≤ zram_orig_data_size)
    (h : compute_zram_effective meminfo_total meminfo_used meminfo_available
      zram_orig_data_size zram_mem_used_total zram_disksize zram_mem_limit limit_pct =
      some r) :
    0 ≤ r.usage_fraction ∧
    r.usage_fraction =
      (if zram_disksize > 0 then zram_orig_data_size / zram_disksize else 0) ∧
    (zram_orig_data_size ≤ zram_disksize → r.usage_fraction ≤ 1) := by
  obtain ⟨rfl, -⟩ := compute_some_elim h
  rw [computeCore_usage_fraction]
  refine ⟨usageFraction_nonneg ho, rfl, fun hod => ?_⟩
  unfold usageFraction
  split_ifs with hdpos
  · exact (div_le_one hdpos).mpr hod
  · norm_num

/-- Witness for C7 (amended) at the over-full device input. -/
theorem usage_fraction_formula_witness :
    (0:ℚ) ≤ 2 ∧
    compute_zram_effective 8 5 3 2 1 1 0 80 = some (computeCore 8 5 2 1 1 0 80) ∧
    (0 ≤ (computeCore 8 5 2 1 1 0 80).usage_fraction ∧
     (computeCore 8 5 2 1 1 0 80).usage_fraction = (if (1:ℚ) > 0 then 2 / 1 else 0) ∧
     ((2:ℚ) ≤ 1 → (computeCore 8 5 2 1 1 0 80).usage_fraction ≤ 1)) :=
  have hsome : compute_zram_effective 8 5 3 2 1 1 0 80 = some (computeCore 8 5 2 1 1 0 80) :=
    compute_eq_some 8 5 3 2 1 1 0 80 (by norm_num)
  ⟨by norm_num, hsome, usage_fraction_formula 8 5 3 2 1 1 0 80 _ (by norm_num) hsome⟩

/-- C8: on every input on which `compute_zram_effective` returns, `e_avail`
is exactly `e_max_used - e_used`; a negative difference is passed through
unchanged, never clamped to zero. -/
theorem e_avail_is_difference (meminfo_total meminfo_used meminfo_available
    zram_orig_data_size zram_mem_used_total zram_disksize zram_mem_limit limit_pct : ℚ)
    (r : ZramEffective)
    (h : compute_zram_effective meminfo_total meminfo_used meminfo_available
      zram_orig_data_size zram_mem_used_total zram_disksize zram_mem_limit limit_pct =
      some r) :
    r.e_avail = r.e_max_used - r.e_used := by
  obtain ⟨rfl, -⟩ := compute_some_elim h
  rfl

/-- Witness for C8 at an over-committed input where the difference is negative. -/
theorem e_avail_is_difference_witness :
    compute_zram_effective 1 5 0 0 3 4 0 80 = some (computeCore 1 5 0 3 4 0 80) ∧
    (computeCore 1 5 0 3 4 0 80).e_avail =
      (computeCore 1 5 0 3 4 0 80).e_max_used - (computeCore 1 5 0 3 4 0 80).e_used :=
  have hsome : compute_zram_effective 1 5 0 0 3 4 0 80 = some (computeCore 1 5 0 3 4 0 80) :=
    compute_eq_some 1 5 0 0 3 4 0 80 (by norm_num)
  ⟨hsome, e_avail_is_difference 1 5 0 0 3 4 0 80 _ hsome⟩

theorem aggregate_field_sums (first : DeviceStats) (rest : List DeviceStats) :
    (aggregateStats first rest).orig_data_size =
      first.orig_data_size + (rest.map DeviceStats.orig_data_size).sum ∧
    (aggregateStats first rest).compr_data_size =
      first.compr_data_size + (rest.map DeviceStats.compr_data_size).sum ∧
    (aggregateStats first rest).mem_used_total =
      first.mem_used_total + (rest.map DeviceStats.mem_used_total).sum ∧
    (aggregateStats first rest).mem_limit =
      first.mem_limit + (rest.map DeviceStats.mem_limit).sum ∧
    (aggregateStats first rest).mem_used_max =
      first.mem_used_max + (rest.map DeviceStats.mem_used_max).sum ∧
    (aggregateStats first rest).disksize =
      first.disksize + (rest.map DeviceStats.disksize).sum := by
  induction rest generalizing first with
  | nil => simp [aggregateStats]
  | cons x xs ih =>
    have hstep : aggregateStats first (x :: xs) = aggregateStats (addStats first x) xs := rfl
    rw [hstep]
    obtain ⟨i1, i2, i3, i4, i5, i6⟩ := ih (addStats first x)
    refine ⟨?_, ?_, ?_, ?_, ?_, ?_⟩ <;>
      simp only [i1, i2, i3, i4, i5, i6, List.map_cons, List.sum_cons] <;>
      simp [addStats, add_assoc]

/-- C9: the aggregation loop sums every numeric field element-wise across
the devices (the first device's record plus the field sums of the rest);
in particular two devices with identical stats aggregate to exactly double
every field. -/
theorem aggregate_sums_and_doubles (first ds : DeviceStats) (rest : List DeviceStats) :
    ((aggregateStats first rest).orig_data_size =
       first.orig_data_size + (rest.map DeviceStats.orig_data_size).sum ∧
     (aggregateStats first rest).compr_data_size =
       first.compr_data_size + (rest.map DeviceStats.compr_data_size).sum ∧
     (aggregateStats first rest).mem_used_total =
       first.mem_used_total + (rest.map DeviceStats.mem_used_total).sum ∧
     (aggregateStats first rest).mem_limit =
       first.mem_limit + (rest.map DeviceStats.mem_limit).sum ∧
     (aggregateStats first rest).mem_used_max =
       first.mem_used_max + (rest.map DeviceStats.mem_used_max).sum ∧
     (aggregateStats first rest).disksize =
       first.disksize + (rest.map DeviceStats.disksize).sum) ∧
    ((aggregateStats ds [ds]).orig_data_size = 2 * ds.orig_data_size ∧
     (aggregateStats ds [ds]).compr_data_size = 2 * ds.compr_data_size ∧
     (aggregateStats ds [ds]).mem_used_total = 2 * ds.mem_used_total ∧
     (aggregateStats ds [ds]).mem_limit = 2 * ds.mem_limit ∧
     (aggregateStats ds [ds]).mem_used_max = 2 * ds.mem_used_max ∧
     (aggregateStats ds [ds]).disksize = 2 * ds.disksize) := by
  refine ⟨aggregate_field_sums first rest, ?_, ?_, ?_, ?_, ?_, ?_⟩ <;>
    simp [aggregateStats, addStats, two_mul]

/-- C10: with `zram_disksize = 0` the disksize cap zeroes the compressed
contribution, so `e_max_used` collapses to exactly `meminfo_total` and
`e_avail = meminfo_total - e_used`: a zero disksize projects no compression
benefit at all. -/
theorem disksize_zero_caps_at_ram (meminfo_total meminfo_used meminfo_available
    zram_orig_data_size zram_mem_used_total zram_mem_limit limit_pct : ℚ)
    (r : ZramEffective)
    (ht : 0 ≤ meminfo_total) (hml : 0 ≤ zram_mem_limit) (hp : 0 ≤ limit_pct)
    (h : compute_zram_effective meminfo_total meminfo_used meminfo_available
      zram_orig_data_size zram_mem_used_total 0 zram_mem_limit limit_pct = some r) :
    r.e_max_used = meminfo_total ∧ r.e_avail = meminfo_total - r.e_used := by
  obtain ⟨rfl, -⟩ := compute_some_elim h
  have hpr : 0 < currentRatio meminfo_used zram_mem_used_total zram_orig_data_size *
      degradationFactor (usageFraction zram_orig_data_size 0) :=
    mul_pos (currentRatio_pos _ _ _) (degradationFactor_pos _)
  have hmax : (computeCore meminfo_total meminfo_used zram_orig_data_size
      zram_mem_used_total 0 zram_mem_limit limit_pct).e_max_used = meminfo_total := by
    rw [computeCore_e_max_used]
    have hnn : 0 ≤ currentRatio meminfo_used zram_mem_used_total zram_orig_data_size *
        degradationFactor (usageFraction zram_orig_data_size 0) * meminfo_total *
        resolvedLimitPct meminfo_total zram_mem_limit limit_pct / 100 :=
      div_nonneg (mul_nonneg (mul_nonneg hpr.le ht) (resolvedLimitPct_nonneg ht hml hp))
        (by norm_num)
    simp only [projectedMaxUsed]
    rw [min_eq_right hnn]
    simp
  refine ⟨hmax, ?_⟩
  rw [computeCore_e_avail, hmax]

/-- Witness for C10 at 1 byte of RAM and a zero-disksize device. -/
theorem disksize_zero_caps_at_ram_witness :
    (0:ℚ) ≤ 1 ∧
    compute_zram_effective 1 0 0 0 0 0 0 80 = some (computeCore 1 0 0 0 0 0 80) ∧
    ((computeCore 1 0 0 0 0 0 80).e_max_used = 1 ∧
     (computeCore 1 0 0 0 0 0 80).e_avail = 1 - (computeCore 1 0 0 0 0 0 80).e_used) :=
  have hsome : compute_zram_effective 1 0 0 0 0 0 0 80 = some (computeCore 1 0 0 0 0 0 80) :=
    compute_eq_some 1 0 0 0 0 0 0 80 (by norm_num)
  ⟨by norm_num, hsome,
   disksize_zero_caps_at_ram 1 0 0 0 0 0 80 _ (by norm_num) (by norm_num) (by norm_num)
     hsome⟩
